import Mathlib

/-!
Shallow embedding of the GtkExpression engine (src/gtk/gtkexpression.c):
expression nodes (constant, object reference, property lookup, closure call),
evaluation, staticness, the watch sizing/install/teardown traversals, the
top-level GtkExpressionWatch state machine and the property binding built on
top of it.  GObject collaborators (heap of objects with typed instances,
named properties, type-instance checks) are modelled explicitly as a `World`.
-/

namespace GtkExpr

/-- Model of a `GValue`: empty (`G_VALUE_INIT`), an integer, or an object
reference (`G_TYPE_OBJECT`-ish), where `object none` is a value holding a
NULL object pointer. -/
inductive GValue : Type where
  | empty : GValue
  | int (i : Int) : GValue
  | object (o : Option Nat) : GValue
  deriving DecidableEq, Repr

/-- Modelled from the spec: a live instance of the host object model.
`types` is the set of types the instance conforms to (backing
`G_TYPE_CHECK_INSTANCE_TYPE`), `props` its named properties with current
values, `writable` the names of properties that are writable and not
construct-only. -/
structure Obj : Type where
  types : List Nat
  props : List (String × GValue)
  writable : List String
  deriving DecidableEq, Repr

/-- Modelled from the spec: the world the engine runs against — a heap of
live host objects indexed by id, and a registry of callables
(`GClosure`s) mapping a full argument list (the `this` instance at
position 0) to a result value. -/
structure World : Type where
  objs : List (Nat × Obj)
  call : Nat → List GValue → GValue

/-- Modelled from the spec: `G_TYPE_CHECK_INSTANCE_TYPE (object, ty)` on a
heap object: the instance conforms to `ty`. -/
def g_type_check_instance_type (w : World) (id : Nat) (ty : Nat) : Bool :=
  match w.objs.lookup id with
  | none => false
  | some o => o.types.contains ty

/-- Modelled from the spec: `g_object_get_property`.  Reading a property
the object does not have warns and leaves the out-value untouched, so the
result is `GValue.empty` in that case. -/
def g_object_get_property (w : World) (id : Nat) (name : String) : GValue :=
  match w.objs.lookup id with
  | none => GValue.empty
  | some o =>
    match o.props.lookup name with
    | none => GValue.empty
    | some v => v

/-- Expression tree, as built by the four constructors in the source:
`gtk_constant_expression_new_for_value` (stored value),
`gtk_object_expression_new` (weakly referenced object; `none` once the
object has been destroyed and `gtk_object_expression_weak_ref_cb` has
cleared the pointer), `gtk_property_expression_new` (the pspec's owner
type and name plus the optional child expression), and
`gtk_closure_expression_new` (callable id plus parameter expressions). -/
inductive Expr : Type where
  | constant (value_type : Nat) (value : GValue) : Expr
  | objectRef (value_type : Nat) (object : Option Nat) : Expr
  | property (owner_type : Nat) (name : String) (child : Option Expr) : Expr
  | closure (value_type : Nat) (fn : Nat) (params : List Expr) : Expr

mutual

/-- Dispatch of `gtk_expression_is_static` over the four expression
classes: `gtk_constant_expression_is_static` returns TRUE,
`gtk_object_expression_is_static` and `gtk_property_expression_is_static`
return FALSE, `gtk_closure_expression_is_static` loops over the params. -/
def gtk_expression_is_static : Expr → Bool
  | .constant _ _ => true
  | .objectRef _ _ => false
  | .property _ _ _ => false
  | .closure _ _ ps => closure_params_static ps

/-- The loop body of `gtk_closure_expression_is_static`: FALSE as soon as
one parameter is not static, TRUE after the loop. -/
def closure_params_static : List Expr → Bool
  | [] => true
  | p :: ps => if gtk_expression_is_static p then closure_params_static ps else false

end

mutual

/-- Dispatch of `gtk_expression_evaluate` over the four expression
classes; `none` models returning FALSE with the out-value left empty,
`some v` models returning TRUE with the out-value set to `v`.
Constant: `gtk_constant_expression_evaluate` copies the stored value.
ObjectRef: `gtk_object_expression_evaluate` fails when the weak pointer
was cleared, otherwise yields the object.  Property:
`gtk_property_expression_evaluate` resolves the source object and reads
the pspec's property from it.  Closure: `gtk_closure_expression_evaluate`
evaluates all params and invokes the callable on `this` (argument 0,
a NULL object value when `this` is absent) and the param values. -/
def gtk_expression_evaluate (w : World) (this : Option Nat) : Expr → Option GValue
  | .constant _ v => some v
  | .objectRef _ ob =>
    match ob with
    | none => none
    | some id => some (GValue.object (some id))
  | .property owner name child =>
    match gtk_property_expression_get_object w this owner child with
    | none => none
    | some id => some (g_object_get_property w id name)
  | .closure _ fn ps =>
    match gtk_closure_params_evaluate w this ps with
    | none => none
    | some vs => some (w.call fn (GValue.object this :: vs))

/-- `gtk_property_expression_get_object`: with no child expression the
supplied `this` is returned as-is (NULL fails); with a child, the child is
evaluated, the result must be an object value holding a non-NULL object,
and that object must pass the `G_TYPE_CHECK_INSTANCE_TYPE` check against
the pspec's owner type. -/
def gtk_property_expression_get_object (w : World) (this : Option Nat)
    (owner : Nat) : Option Expr → Option Nat
  | none => this
  | some c =>
    match gtk_expression_evaluate w this c with
    | none => none
    | some v =>
      match v with
      | .object (some id) =>
        if g_type_check_instance_type w id owner then some id else none
      | _ => none

/-- The parameter loop of `gtk_closure_expression_evaluate`: evaluate the
parameters in order, failing as soon as one fails. -/
def gtk_closure_params_evaluate (w : World) (this : Option Nat) :
    List Expr → Option (List GValue)
  | [] => some []
  | p :: ps =>
    match gtk_expression_evaluate w this p with
    | none => none
    | some v =>
      match gtk_closure_params_evaluate w this ps with
      | none => none
      | some vs => some (v :: vs)

end

/-! ### Watch sizing and the watch/unwatch buffer traversals -/

/-- The C struct sizes the watch-size arithmetic is expressed in:
`sizeof (GtkObjectExpressionWatch)`, `sizeof (GtkPropertyExpressionWatch)`
and `sizeof (GtkClosureExpressionWatch)`. -/
structure Sizes : Type where
  objectW : Nat
  propertyW : Nat
  closureW : Nat
  deriving DecidableEq, Repr

mutual

/-- Dispatch of `gtk_expression_watch_size` over the four expression
classes: constants use `gtk_expression_watch_size_static` (0), object
expressions `gtk_object_expression_watch_size` (their watch struct size),
property expressions `gtk_property_expression_watch_size` (their watch
struct size plus the child's watch size whenever a child exists), closure
expressions `gtk_closure_expression_watch_size` (their watch struct size
plus the watch sizes of the non-static parameters). -/
def gtk_expression_watch_size (sz : Sizes) : Expr → Nat
  | .constant _ _ => 0
  | .objectRef _ _ => sz.objectW
  | .property _ _ none => sz.propertyW
  | .property _ _ (some c) => sz.propertyW + gtk_expression_watch_size sz c
  | .closure _ _ ps => sz.closureW + closure_params_watch_size sz ps

/-- The loop of `gtk_closure_expression_watch_size`: static parameters are
skipped, the others contribute their watch size. -/
def closure_params_watch_size (sz : Sizes) : List Expr → Nat
  | [] => 0
  | p :: ps =>
    (if gtk_expression_is_static p then 0 else gtk_expression_watch_size sz p)
      + closure_params_watch_size sz ps

end

mutual

/-- The sequence of sub-watch slots initialized by the `watch` vfuncs
(`gtk_expression_subwatch_init` dispatch), for a node placed at byte
offset `off` of the watch buffer, as `(offset, slot header size)` pairs in
initialization order.  Constants use the no-op
`gtk_expression_watch_static`; `gtk_object_expression_watch` fills its own
slot; `gtk_property_expression_watch` fills its own slot and, when its
child exists and is not static, recursively initializes the child at
`pwatch->sub` (right after its header); `gtk_closure_expression_watch`
fills its own slot and walks the parameters in order, skipping static
ones and advancing the cursor by each watched parameter's watch size. -/
def watch_touched (sz : Sizes) : Expr → Nat → List (Nat × Nat)
  | .constant _ _, _ => []
  | .objectRef _ _, off => [(off, sz.objectW)]
  | .property _ _ none, off => [(off, sz.propertyW)]
  | .property _ _ (some c), off =>
    (off, sz.propertyW) ::
      (if gtk_expression_is_static c then []
       else watch_touched sz c (off + sz.propertyW))
  | .closure _ _ ps, off =>
    (off, sz.closureW) :: closure_watch_touched sz ps (off + sz.closureW)

/-- The parameter loop of `gtk_closure_expression_watch`: `sub` starts at
`cwatch->sub`, static parameters are skipped, each watched parameter is
initialized at the cursor which then advances by that parameter's watch
size. -/
def closure_watch_touched (sz : Sizes) : List Expr → Nat → List (Nat × Nat)
  | [], _ => []
  | p :: ps, off =>
    if gtk_expression_is_static p then closure_watch_touched sz ps off
    else watch_touched sz p off
      ++ closure_watch_touched sz ps (off + gtk_expression_watch_size sz p)

end

mutual

/-- The sequence of sub-watch slots torn down by the `unwatch` vfuncs
(`gtk_expression_subwatch_finish` dispatch), in teardown order, mirroring
`gtk_expression_unwatch_static`, `gtk_object_expression_unwatch`,
`gtk_property_expression_unwatch` (destroy its own closure, then finish
the child's sub-watch when the child exists and is not static) and
`gtk_closure_expression_unwatch` (walk the parameters in order, skipping
static ones, advancing by each watched parameter's watch size). -/
def unwatch_touched (sz : Sizes) : Expr → Nat → List (Nat × Nat)
  | .constant _ _, _ => []
  | .objectRef _ _, off => [(off, sz.objectW)]
  | .property _ _ none, off => [(off, sz.propertyW)]
  | .property _ _ (some c), off =>
    (off, sz.propertyW) ::
      (if gtk_expression_is_static c then []
       else unwatch_touched sz c (off + sz.propertyW))
  | .closure _ _ ps, off =>
    (off, sz.closureW) :: closure_unwatch_touched sz ps (off + sz.closureW)

/-- The parameter loop of `gtk_closure_expression_unwatch`. -/
def closure_unwatch_touched (sz : Sizes) : List Expr → Nat → List (Nat × Nat)
  | [], _ => []
  | p :: ps, off =>
    if gtk_expression_is_static p then closure_unwatch_touched sz ps off
    else unwatch_touched sz p off
      ++ closure_unwatch_touched sz ps (off + gtk_expression_watch_size sz p)

end

/-! ### Object expression watch list and destruction callback -/

/-- Mutable part of a `GtkObjectExpression`: the weakly referenced object
pointer (`none` once cleared) and the `watches` list of registered
`GtkObjectExpressionWatch` entries, identified here by their `user_data`
token. -/
structure ObjectExpressionState : Type where
  object : Option Nat
  watches : List Nat
  deriving DecidableEq, Repr

/-- Observable events of the object expression's destruction callback:
clearing the weak pointer and invoking one registered watch's notify. -/
inductive OEv : Type where
  | clearRef : OEv
  | notifyW (u : Nat) : OEv
  deriving DecidableEq, Repr

/-- `gtk_object_expression_weak_ref_cb`: first clear `self->object`, then
walk `self->watches` in list order invoking each entry's notify. -/
def gtk_object_expression_weak_ref_cb (s : ObjectExpressionState) :
    ObjectExpressionState × List OEv :=
  ({ s with object := none }, OEv.clearRef :: s.watches.map OEv.notifyW)

/-- `gtk_object_expression_watch`: prepend the new entry to the list. -/
def gtk_object_expression_watch (s : ObjectExpressionState) (u : Nat) :
    ObjectExpressionState :=
  { s with watches := u :: s.watches }

/-- `gtk_object_expression_unwatch`: `g_slist_remove` the entry (first
occurrence, by identity). -/
def gtk_object_expression_unwatch (s : ObjectExpressionState) (u : Nat) :
    ObjectExpressionState :=
  { s with watches := s.watches.erase u }

/-! ### Resource accounting for closure evaluation -/

/-- Observable outcome of one run of `gtk_closure_expression_evaluate`:
the returned value (`none` = FALSE), whether `g_closure_invoke` ran, the
`instance_and_params` slots that got `g_value_init`ed (in order; slot 0
is the instance, slots 1..N the parameters) and the slots passed to
`g_value_unset` at the `out:` label. -/
structure ClosureRun : Type where
  result : Option GValue
  invoked : Bool
  initialized : List Nat
  unset : List Nat
  deriving DecidableEq, Repr

/-- The evaluation loop of `gtk_closure_expression_evaluate`, keeping the
values of the successfully evaluated prefix of the parameters: returns
those values and whether the whole loop succeeded (FALSE on the first
failing parameter, after which the loop jumps to `out:`). -/
def gtk_closure_params_eval_upto (w : World) (this : Option Nat) :
    List Expr → List GValue × Bool
  | [] => ([], true)
  | p :: ps =>
    match gtk_expression_evaluate w this p with
    | none => ([], false)
    | some v =>
      match gtk_closure_params_eval_upto w this ps with
      | (vs, ok) => (v :: vs, ok)

/-- `gtk_closure_expression_evaluate` with its resource bookkeeping:
parameter `i` initializes slot `i + 1` when it evaluates successfully;
once all parameters succeeded, slot 0 is initialized from `this` (a NULL
object value when `this` is absent) and the callable is invoked; the
`out:` label unsets every slot 0..N (unsetting a never-initialized,
zeroed slot is a no-op). -/
def gtk_closure_expression_evaluate_run (w : World) (this : Option Nat)
    (fn : Nat) (ps : List Expr) : ClosureRun :=
  match gtk_closure_params_eval_upto w this ps with
  | (vs, ok) =>
    { result := if ok then some (w.call fn (GValue.object this :: vs)) else none
      invoked := ok
      initialized := (List.range vs.length).map (· + 1) ++ (if ok then [0] else [])
      unset := List.range (ps.length + 1) }

/-! ### The GtkExpressionWatch state machine -/

/-- State of a `GtkExpressionWatch`: the strong reference to the watched
expression (`none` once unwatched, the `gtk_expression_watch_is_watching`
criterion), the weak `this` pointer, and whether a `user_destroy` callback
was supplied. -/
structure WatchState : Type where
  expression : Option Expr
  this : Option Nat
  hasUserDestroy : Bool

/-- `gtk_expression_watch_is_watching`: the expression pointer is still
set. -/
def gtk_expression_watch_is_watching (ws : WatchState) : Bool :=
  ws.expression.isSome

/-- Observable events of the top-level watch teardown paths. -/
inductive WEv : Type where
  | notifyUser : WEv
  | subwatchFinish : WEv
  | weakUnrefThis : WEv
  | userDestroy : WEv
  | exprUnref : WEv
  | watchUnref : WEv
  deriving DecidableEq, Repr

/-- `gtk_expression_watch_unwatch`: a guarded no-op when not watching;
otherwise finish the sub-watches, release the weak reference on `this`
when still set, run the user-data destroy callback when supplied, clear
the expression reference and drop the watch's own reference. -/
def gtk_expression_watch_unwatch (ws : WatchState) : WatchState × List WEv :=
  if gtk_expression_watch_is_watching ws then
    ({ ws with expression := none },
      WEv.subwatchFinish
        :: ((if ws.this.isSome then [WEv.weakUnrefThis] else [])
          ++ (if ws.hasUserDestroy then [WEv.userDestroy] else [])
          ++ [WEv.exprUnref, WEv.watchUnref]))
  else (ws, [])

/-- `gtk_expression_watch_this_cb` (the weak-reference callback on the
watch's `this` object): clear the `this` pointer, invoke the caller's
notify, then unwatch. -/
def gtk_expression_watch_this_cb (ws : WatchState) : WatchState × List WEv :=
  match gtk_expression_watch_unwatch { ws with this := none } with
  | (ws2, evs) => (ws2, WEv.notifyUser :: evs)

/-- `gtk_expression_watch_evaluate`: FALSE when not watching, otherwise
`gtk_expression_evaluate` on the watched expression with the captured
`this`. -/
def gtk_expression_watch_evaluate (w : World) (ws : WatchState) : Option GValue :=
  match ws.expression with
  | none => none
  | some e => gtk_expression_evaluate w ws.this e

/-! ### Bind -/

/-- Modelled from the spec: `g_object_set_property` on a heap object —
the named property of the target, which bind resolved at bind time, is
set to the new value. -/
def g_object_set_property (w : World) (id : Nat) (name : String) (v : GValue) : World :=
  { w with
    objs := w.objs.map fun p =>
      if p.1 = id then
        (p.1, { p.2 with
                props := p.2.props.map fun q => if q.1 = name then (q.1, v) else q })
      else p }

/-- State of a `GtkExpressionBind`: the target object (`none` once
`invalidate_binds` cleared it during the target's destruction), the
resolved pspec's name, and the underlying watch. -/
structure BindState : Type where
  target : Option Nat
  pspecName : String
  watch : WatchState

/-- `gtk_expression_bind_notify`: do nothing when the target was
invalidated; evaluate through the watch and, only on success, write the
value into the target's property — a failed evaluation leaves the world
untouched. -/
def gtk_expression_bind_notify (w : World) (b : BindState) : World :=
  match b.target with
  | none => w
  | some t =>
    match gtk_expression_watch_evaluate w b.watch with
    | none => w
    | some v => g_object_set_property w t b.pspecName v

/-- `gtk_expression_bind`: resolve the target's pspec
(`g_object_class_find_property`, modelled from the spec through the
target object's property table) and check it is writable and not
construct-only, failing with `none` (after a critical diagnostic) when
either check fails; otherwise register the bind, create the watch on the
expression with the given `this` and `gtk_expression_bind_free` as the
user-data destroyer, and run one immediate `gtk_expression_bind_notify`.
Returns the bind and the resulting world. -/
def gtk_expression_bind (w : World) (e : Expr) (target : Nat)
    (prop : String) (this : Option Nat) : Option (BindState × World) :=
  match w.objs.lookup target with
  | none => none
  | some o =>
    if (o.props.lookup prop).isSome && o.writable.contains prop then
      match (⟨some target, prop, ⟨some e, this, true⟩⟩ : BindState) with
      | b => some (b, gtk_expression_bind_notify w b)
    else none

/-! ### Helper: induction principle for the nested expression type -/

/-- Induction over expression trees, with the child of a property node and
the members of a closure node's parameter list as subterms. -/
def Expr.indOn (motive : Expr → Prop)
    (hconst : ∀ vt v, motive (.constant vt v))
    (hobj : ∀ vt ob, motive (.objectRef vt ob))
    (hpnone : ∀ o n, motive (.property o n none))
    (hpsome : ∀ o n c, motive c → motive (.property o n (some c)))
    (hclos : ∀ vt f ps, (∀ p ∈ ps, motive p) → motive (.closure vt f ps)) :
    ∀ e, motive e
  | .constant vt v => hconst vt v
  | .objectRef vt ob => hobj vt ob
  | .property o n none => hpnone o n
  | .property o n (some c) =>
    hpsome o n c (Expr.indOn motive hconst hobj hpnone hpsome hclos c)
  | .closure vt f ps =>
    hclos vt f ps fun p hp =>
      have : sizeOf p < sizeOf (Expr.closure vt f ps) := by
        have h1 := List.sizeOf_lt_of_mem hp
        simp only [Expr.closure.sizeOf_spec]
        omega
      Expr.indOn motive hconst hobj hpnone hpsome hclos p
termination_by e => sizeOf e

/-- The closure parameter loops of unwatch and watch visit the same slots
when each parameter's unwatch and watch traversals agree. -/
theorem closure_unwatch_touched_eq_aux (sz : Sizes) (ps : List Expr)
    (ih : ∀ p ∈ ps, ∀ off, unwatch_touched sz p off = watch_touched sz p off) :
    ∀ off, closure_unwatch_touched sz ps off = closure_watch_touched sz ps off := by
  induction ps with
  | nil => intro off; rfl
  | cons p ps ihps =>
    intro off
    have hp : ∀ off, unwatch_touched sz p off = watch_touched sz p off :=
      ih p (by simp)
    have hps := ihps fun q hq => ih q (by simp [hq])
    simp only [closure_unwatch_touched, closure_watch_touched]
    by_cases h : gtk_expression_is_static p = true
    · simp [h, hps]
    · simp [h, hp, hps]

/-- The unwatch traversal visits exactly the slots the watch traversal
initialized, in the same order and at the same offsets. -/
theorem unwatch_touched_eq_watch_touched (sz : Sizes) :
    ∀ e off, unwatch_touched sz e off = watch_touched sz e off := by
  intro e
  induction e using Expr.indOn with
  | hconst vt v => intro off; rfl
  | hobj vt ob => intro off; rfl
  | hpnone o n => intro off; rfl
  | hpsome o n c ihc =>
    intro off
    simp only [unwatch_touched, watch_touched]
    by_cases h : gtk_expression_is_static c = true
    · simp [h]
    · simp [h, ihc]
  | hclos vt f ps ih =>
    intro off
    simp only [unwatch_touched, watch_touched,
      closure_unwatch_touched_eq_aux sz ps ih]

/-- Every slot visited by the closure parameter loop of watch lies inside
the byte range the parameter list contributes to the watch size. -/
theorem closure_watch_touched_bound_aux (sz : Sizes) (ps : List Expr)
    (ih : ∀ p ∈ ps, ∀ off, ∀ pr ∈ watch_touched sz p off,
      off ≤ pr.1 ∧ pr.1 + pr.2 ≤ off + gtk_expression_watch_size sz p) :
    ∀ off, ∀ pr ∈ closure_watch_touched sz ps off,
      off ≤ pr.1 ∧ pr.1 + pr.2 ≤ off + closure_params_watch_size sz ps := by
  induction ps with
  | nil => intro off pr hpr; simp [closure_watch_touched] at hpr
  | cons p ps ihps =>
    intro off pr hpr
    have hp := ih p (by simp)
    have hps := ihps fun q hq => ih q (by simp [hq])
    simp only [closure_watch_touched] at hpr
    simp only [closure_params_watch_size]
    by_cases h : gtk_expression_is_static p = true
    · simp only [h, if_true] at hpr ⊢
      have := hps off pr hpr
      omega
    · simp only [h, if_false, Bool.false_eq_true, List.mem_append] at hpr ⊢
      rcases hpr with hpr | hpr
      · have := hp off pr hpr
        omega
      · have := hps (off + gtk_expression_watch_size sz p) pr hpr
        omega

/-- Every slot visited by the watch traversal of a node placed at `off`
lies inside `[off, off + watch_size)`: the watch size computed before
`gtk_expression_watch` bounds the whole byte span the traversal touches. -/
theorem watch_touched_bound (sz : Sizes) :
    ∀ e, ∀ off, ∀ pr ∈ watch_touched sz e off,
      off ≤ pr.1 ∧ pr.1 + pr.2 ≤ off + gtk_expression_watch_size sz e := by
  intro e
  induction e using Expr.indOn with
  | hconst vt v => intro off pr hpr; simp [watch_touched] at hpr
  | hobj vt ob =>
    intro off pr hpr
    simp only [watch_touched, List.mem_singleton] at hpr
    subst hpr
    simp [gtk_expression_watch_size]
  | hpnone o n =>
    intro off pr hpr
    simp only [watch_touched, List.mem_singleton] at hpr
    subst hpr
    simp [gtk_expression_watch_size]
  | hpsome o n c ihc =>
    intro off pr hpr
    simp only [watch_touched, List.mem_cons] at hpr
    simp only [gtk_expression_watch_size]
    rcases hpr with hpr | hpr
    · subst hpr; simp
    · by_cases h : gtk_expression_is_static c = true
      · simp [h] at hpr
      · simp only [h, if_false, Bool.false_eq_true] at hpr
        have := ihc (off + sz.propertyW) pr hpr
        omega
  | hclos vt f ps ih =>
    intro off pr hpr
    simp only [watch_touched, List.mem_cons] at hpr
    simp only [gtk_expression_watch_size]
    rcases hpr with hpr | hpr
    · subst hpr; simp
    · have := closure_watch_touched_bound_aux sz ps ih (off + sz.closureW) pr hpr
      omega

/-- The `gtk_closure_expression_is_static` loop returns TRUE exactly when
every parameter is static. -/
theorem closure_params_static_iff (ps : List Expr) :
    closure_params_static ps = true ↔ ∀ p ∈ ps, gtk_expression_is_static p = true := by
  induction ps with
  | nil => simp [closure_params_static]
  | cons p ps ih =>
    by_cases h : gtk_expression_is_static p = true
    · simp [closure_params_static, h, ih]
    · simp [closure_params_static, h]

/-- The overall result of the closure parameter loop agrees with the
prefix-tracking version: success yields exactly the tracked values. -/
theorem gtk_closure_params_evaluate_eq_upto (w : World) (this : Option Nat)
    (ps : List Expr) :
    gtk_closure_params_evaluate w this ps =
      (if (gtk_closure_params_eval_upto w this ps).2
       then some (gtk_closure_params_eval_upto w this ps).1
       else none) := by
  induction ps with
  | nil => rfl
  | cons p ps ih =>
    simp only [gtk_closure_params_evaluate, gtk_closure_params_eval_upto]
    cases hv : gtk_expression_evaluate w this p with
    | none => rfl
    | some v =>
      rw [ih]
      cases hok : (gtk_closure_params_eval_upto w this ps).2 <;> simp

/-- The prefix of parameter values evaluated before a failure is never
longer than the parameter list. -/
theorem gtk_closure_params_eval_upto_length_le (w : World) (this : Option Nat)
    (ps : List Expr) :
    (gtk_closure_params_eval_upto w this ps).1.length ≤ ps.length := by
  induction ps with
  | nil => simp [gtk_closure_params_eval_upto]
  | cons p ps ih =>
    simp only [gtk_closure_params_eval_upto]
    cases hv : gtk_expression_evaluate w this p with
    | none => simp
    | some v => simpa using ih

/-! ### Claim theorems -/

/-- C9: for every Constant expression and every `this` context (including
null), evaluate always succeeds and returns the stored value, and
`is_static` returns true. -/
theorem claim_C9_constant_evaluate (w : World) (this : Option Nat) (vt : Nat) (v : GValue) :
    gtk_expression_evaluate w this (.constant vt v) = some v ∧
    gtk_expression_is_static (.constant vt v) = true :=
  ⟨rfl, rfl⟩

/-- C8: `is_static` is a pure function of the tree shape: a Property
expression is never static, and a Closure expression is static exactly
when every parameter expression is static. -/
theorem claim_C8_is_static_shape (o : Nat) (n : String) (c : Option Expr)
    (vt f : Nat) (ps : List Expr) :
    gtk_expression_is_static (.property o n c) = false ∧
    (gtk_expression_is_static (.closure vt f ps) = true ↔
      ∀ p ∈ ps, gtk_expression_is_static p = true) :=
  ⟨rfl, closure_params_static_iff ps⟩

/-- Witness for C8 at concrete inputs: a property expression over a static
child is not static, and a closure with no parameters is static. -/
theorem claim_C8_witness :
    gtk_expression_is_static (.property 0 "n" (some (.constant 0 .empty))) = false ∧
    gtk_expression_is_static (.closure 0 0 ([] : List Expr)) = true :=
  ⟨(claim_C8_is_static_shape 0 "n" (some (.constant 0 .empty)) 0 0 []).1,
   (claim_C8_is_static_shape 0 "n" (some (.constant 0 .empty)) 0 0 []).2.mpr (by simp)⟩

/-- C4: an ObjectRef expression evaluates successfully exactly when its
weak pointer is still set (the object is alive), yielding that object as
the value; `gtk_object_expression_weak_ref_cb` first clears the pointer
and then invokes every registered watch entry exactly once, in list
order, synchronously. -/
theorem claim_C4_object_expression (w : World) (this : Option Nat) (vt : Nat)
    (s : ObjectExpressionState) (u : Nat) :
    (gtk_expression_evaluate w this (.objectRef vt s.object)).isSome = s.object.isSome ∧
    (∀ id, s.object = some id →
      gtk_expression_evaluate w this (.objectRef vt s.object)
        = some (.object (some id))) ∧
    (gtk_object_expression_weak_ref_cb s).1.object = none ∧
    (gtk_object_expression_weak_ref_cb s).2 = OEv.clearRef :: s.watches.map OEv.notifyW ∧
    (gtk_object_expression_weak_ref_cb s).2.count (OEv.notifyW u) = s.watches.count u := by
  refine ⟨?_, ?_, rfl, rfl, ?_⟩
  · cases s.object <;> simp [gtk_expression_evaluate]
  · intro id hid
    rw [hid]
    rfl
  · have hinj : Function.Injective OEv.notifyW := fun a b h => by
      cases h; rfl
    simp [gtk_object_expression_weak_ref_cb, List.count_cons,
      List.count_map_of_injective _ _ hinj]

/-- Witness for C4 at a concrete input: an object expression whose weak
pointer is still set evaluates to that object. -/
theorem claim_C4_witness :
    gtk_expression_evaluate ⟨[], fun _ _ => .empty⟩ none (.objectRef 0 (some 2))
      = some (.object (some 2)) :=
  (claim_C4_object_expression ⟨[], fun _ _ => .empty⟩ none 0 ⟨some 2, [4, 4, 9]⟩ 4).2.1 2 rfl

/-- C10: for a Property expression with a child, a child that evaluates
successfully to a non-object value or to a NULL object reference makes
the whole evaluation fail, with no fallback to the `this` context. -/
theorem claim_C10_child_non_object (w : World) (this : Option Nat)
    (o : Nat) (n : String) (c : Expr) (v : GValue)
    (hv : gtk_expression_evaluate w this c = some v)
    (hno : ∀ id, v ≠ GValue.object (some id)) :
    gtk_expression_evaluate w this (.property o n (some c)) = none := by
  have hobj : gtk_property_expression_get_object w this o (some c) = none := by
    simp only [gtk_property_expression_get_object, hv]
  simp only [gtk_expression_evaluate, hobj]

/-- Witness for C10 at concrete inputs: a child evaluating to an integer,
and a child evaluating to a NULL object reference, each make the property
evaluation fail even though a `this` is supplied. -/
theorem claim_C10_witness :
    gtk_expression_evaluate ⟨[], fun _ _ => .empty⟩ (some 1)
      (.property 4 "n" (some (.constant 0 (.int 5)))) = none ∧
    gtk_expression_evaluate ⟨[], fun _ _ => .empty⟩ (some 1)
      (.property 4 "n" (some (.constant 0 (.object none)))) = none :=
  ⟨claim_C10_child_non_object ⟨[], fun _ _ => .empty⟩ (some 1) 4 "n"
      (.constant 0 (.int 5)) (.int 5) rfl (fun _ h => GValue.noConfusion h),
   claim_C10_child_non_object ⟨[], fun _ _ => .empty⟩ (some 1) 4 "n"
      (.constant 0 (.object none)) (.object none) rfl
      (fun _ h => Option.noConfusion (GValue.object.inj h))⟩

/-- C1: evaluation of the concrete program state at the failing input.
Object 1 has instance types `[5]` and no properties; the property
expression's pspec has owner type 7 and name `p`.  With no child and
`this` = object 1 — which is not an instance of the owner type and lacks
the property — evaluation nevertheless SUCCEEDS (first conjunct), because
`gtk_property_expression_get_object` returns `this` without the
`G_TYPE_CHECK_INSTANCE_TYPE` check that the child path performs, and the
host's `g_object_get_property` merely warns, leaving the value empty.
The claim (and the doc comment of `gtk_property_expression_new`) says
this evaluation fails.  The other conjuncts show the parts of the claim
the code does honor: no child and `this` = NULL fails, and the very same
non-conforming object reached through a child expression fails the type
check. -/
theorem claim_C1_this_path_skips_type_check :
    gtk_expression_evaluate ⟨[(1, ⟨[5], [], []⟩)], fun _ _ => .empty⟩ (some 1)
      (.property 7 "p" none) = some GValue.empty ∧
    gtk_expression_evaluate ⟨[(1, ⟨[5], [], []⟩)], fun _ _ => .empty⟩ none
      (.property 7 "p" none) = none ∧
    gtk_expression_evaluate ⟨[(1, ⟨[5], [], []⟩)], fun _ _ => .empty⟩ none
      (.property 7 "p" (some (.constant 9 (.object (some 1))))) = none :=
  ⟨by decide, by decide, by decide⟩

/-- C3: a Closure expression run agrees with plain evaluation; when some
parameter fails to evaluate the run fails without invoking the callable
and every initialized parameter slot is among the slots unset at the
`out:` label (resource-count neutral); when all parameters succeed the
callable is invoked with `this` as argument 0 and the parameter values as
arguments 1..N and its result becomes the node's value. -/
theorem claim_C3_closure_evaluate (w : World) (this : Option Nat)
    (vt fn : Nat) (ps : List Expr) :
    (gtk_closure_expression_evaluate_run w this fn ps).result
      = gtk_expression_evaluate w this (.closure vt fn ps) ∧
    (gtk_closure_params_evaluate w this ps = none →
      (gtk_closure_expression_evaluate_run w this fn ps).invoked = false ∧
      (gtk_closure_expression_evaluate_run w this fn ps).result = none) ∧
    (∀ vs, gtk_closure_params_evaluate w this ps = some vs →
      (gtk_closure_expression_evaluate_run w this fn ps).invoked = true ∧
      (gtk_closure_expression_evaluate_run w this fn ps).result
        = some (w.call fn (GValue.object this :: vs))) ∧
    (∀ s ∈ (gtk_closure_expression_evaluate_run w this fn ps).initialized,
      s ∈ (gtk_closure_expression_evaluate_run w this fn ps).unset) := by
  have hpe := gtk_closure_params_evaluate_eq_upto w this ps
  have hlen := gtk_closure_params_eval_upto_length_le w this ps
  rcases hpre : gtk_closure_params_eval_upto w this ps with ⟨vs0, ok⟩
  rw [hpre] at hpe hlen
  simp only at hpe hlen
  cases ok with
  | false =>
    simp only [if_false, Bool.false_eq_true] at hpe
    refine ⟨?_, ?_, ?_, ?_⟩
    · simp [gtk_closure_expression_evaluate_run, hpre, gtk_expression_evaluate, hpe]
    · intro _
      simp [gtk_closure_expression_evaluate_run, hpre]
    · intro vs hvs
      rw [hpe] at hvs
      cases hvs
    · intro s hs
      simp only [gtk_closure_expression_evaluate_run, hpre] at hs ⊢
      simp only [List.mem_append, List.mem_map, List.mem_range, if_false,
        Bool.false_eq_true, List.not_mem_nil, or_false] at hs
      obtain ⟨i, hi, rfl⟩ := hs
      simp only [List.mem_range]
      omega
  | true =>
    simp only [if_true] at hpe
    refine ⟨?_, ?_, ?_, ?_⟩
    · simp [gtk_closure_expression_evaluate_run, hpre, gtk_expression_evaluate, hpe]
    · intro h
      rw [hpe] at h
      cases h
    · intro vs hvs
      rw [hpe] at hvs
      cases hvs
      simp [gtk_closure_expression_evaluate_run, hpre]
    · intro s hs
      simp only [gtk_closure_expression_evaluate_run, hpre] at hs ⊢
      simp only [List.mem_append, List.mem_map, List.mem_range, if_true,
        List.mem_singleton] at hs
      simp only [List.mem_range]
      rcases hs with ⟨i, hi, rfl⟩ | rfl
      · omega
      · omega

/-- Witness for C3 at a concrete input: the single parameter (an object
expression whose object is gone) fails, so the run does not invoke the
callable and returns failure. -/
theorem claim_C3_witness :
    (gtk_closure_expression_evaluate_run ⟨[], fun _ _ => .empty⟩ none 5
      [.objectRef 0 none]).invoked = false ∧
    (gtk_closure_expression_evaluate_run ⟨[], fun _ _ => .empty⟩ none 5
      [.objectRef 0 none]).result = none :=
  (claim_C3_closure_evaluate ⟨[], fun _ _ => .empty⟩ none 0 5 [.objectRef 0 none]).2.1 rfl

/-- C6: when the watched `this` object is destroyed while the watch is
watching, `gtk_expression_watch_this_cb` clears the `this` pointer,
invokes the caller's notify exactly once (and first), and leaves the
watch in the unwatched state. -/
theorem claim_C6_this_destroyed (ws : WatchState)
    (h : gtk_expression_watch_is_watching ws = true) :
    (gtk_expression_watch_this_cb ws).1.this = none ∧
    gtk_expression_watch_is_watching (gtk_expression_watch_this_cb ws).1 = false ∧
    (gtk_expression_watch_this_cb ws).2.count WEv.notifyUser = 1 ∧
    (gtk_expression_watch_this_cb ws).2.head? = some WEv.notifyUser := by
  have h2 : ws.expression.isSome = true := h
  cases hud : ws.hasUserDestroy <;>
    simp [gtk_expression_watch_this_cb, gtk_expression_watch_unwatch,
      gtk_expression_watch_is_watching, h2, hud, List.count_cons]

/-- Witness for C6 at a concrete watching state. -/
theorem claim_C6_witness :
    (gtk_expression_watch_this_cb ⟨some (.constant 0 .empty), some 3, true⟩).1.this
      = none ∧
    gtk_expression_watch_is_watching
      (gtk_expression_watch_this_cb ⟨some (.constant 0 .empty), some 3, true⟩).1
      = false ∧
    (gtk_expression_watch_this_cb
      ⟨some (.constant 0 .empty), some 3, true⟩).2.count WEv.notifyUser = 1 ∧
    (gtk_expression_watch_this_cb ⟨some (.constant 0 .empty), some 3, true⟩).2.head?
      = some WEv.notifyUser :=
  claim_C6_this_destroyed ⟨some (.constant 0 .empty), some 3, true⟩ rfl

/-- C7: an unwatched watch is inert — unwatch is a guarded no-op (state
unchanged, no teardown events) and evaluating through the watch fails;
while watching, evaluating through the watch is evaluating the watched
expression with the captured `this`. -/
theorem claim_C7_unwatched_inert (w : World) (ws : WatchState) :
    (gtk_expression_watch_is_watching ws = false →
      gtk_expression_watch_unwatch ws = (ws, []) ∧
      gtk_expression_watch_evaluate w ws = none) ∧
    (∀ e, ws.expression = some e →
      gtk_expression_watch_evaluate w ws = gtk_expression_evaluate w ws.this e) := by
  constructor
  · intro h
    have hnone : ws.expression = none := by
      cases he : ws.expression
      · rfl
      · rw [gtk_expression_watch_is_watching, he] at h
        cases h
    constructor
    · simp [gtk_expression_watch_unwatch, gtk_expression_watch_is_watching, hnone]
    · simp [gtk_expression_watch_evaluate, hnone]
  · intro e he
    simp [gtk_expression_watch_evaluate, he]

/-- Witness for C7 at a concrete unwatched state. -/
theorem claim_C7_witness :
    gtk_expression_watch_unwatch ⟨none, some 3, false⟩
      = (⟨none, some 3, false⟩, []) ∧
    gtk_expression_watch_evaluate ⟨[], fun _ _ => .empty⟩ ⟨none, some 3, false⟩
      = none :=
  (claim_C7_unwatched_inert ⟨[], fun _ _ => .empty⟩ ⟨none, some 3, false⟩).1 rfl

/-- C5: a successful bind captures the expression and `this` in its watch
and performs exactly one immediate `gtk_expression_bind_notify` at bind
time; a notify re-evaluates through the watch (hence against the captured
`this`) and writes into the target's property only on success — a failed
evaluation leaves the world unchanged. -/
theorem claim_C5_bind (w : World) (e : Expr) (t : Nat) (prop : String)
    (this : Option Nat) (b : BindState) (w2 : World) :
    (gtk_expression_bind w e t prop this = some (b, w2) →
      b.target = some t ∧ b.pspecName = prop ∧
      b.watch.expression = some e ∧ b.watch.this = this ∧
      w2 = gtk_expression_bind_notify w b) ∧
    (gtk_expression_watch_evaluate w b.watch = none →
      gtk_expression_bind_notify w b = w) ∧
    (∀ t2 v, b.target = some t2 →
      gtk_expression_watch_evaluate w b.watch = some v →
      gtk_expression_bind_notify w b = g_object_set_property w t2 b.pspecName v) := by
  refine ⟨?_, ?_, ?_⟩
  · intro h
    unfold gtk_expression_bind at h
    split at h
    · cases h
    · split at h
      · simp only [Option.some.injEq, Prod.mk.injEq] at h
        obtain ⟨hb, hw2⟩ := h
        subst hb
        subst hw2
        exact ⟨rfl, rfl, rfl, rfl, rfl⟩
      · cases h
  · intro h
    cases ht : b.target with
    | none => simp [gtk_expression_bind_notify, ht]
    | some t2 => simp [gtk_expression_bind_notify, ht, h]
  · intro t2 v ht hv
    simp [gtk_expression_bind_notify, ht, hv]

/-- Witness for C5 at a concrete successful bind: target object 1 has a
writable property `l`, the expression is the constant 7. -/
theorem claim_C5_witness :
    (⟨some 1, "l", ⟨some (.constant 0 (.int 7)), none, true⟩⟩ : BindState).target
      = some 1 ∧
    (⟨some 1, "l", ⟨some (.constant 0 (.int 7)), none, true⟩⟩ : BindState).pspecName
      = "l" ∧
    (⟨some 1, "l", ⟨some (.constant 0 (.int 7)), none, true⟩⟩ :
        BindState).watch.expression = some (.constant 0 (.int 7)) ∧
    (⟨some 1, "l", ⟨some (.constant 0 (.int 7)), none, true⟩⟩ : BindState).watch.this
      = none ∧
    gtk_expression_bind_notify
        ⟨[(1, ⟨[2], [("l", GValue.int 0)], ["l"]⟩)], fun _ _ => .empty⟩
        ⟨some 1, "l", ⟨some (.constant 0 (.int 7)), none, true⟩⟩
      = gtk_expression_bind_notify
        ⟨[(1, ⟨[2], [("l", GValue.int 0)], ["l"]⟩)], fun _ _ => .empty⟩
        ⟨some 1, "l", ⟨some (.constant 0 (.int 7)), none, true⟩⟩ :=
  (claim_C5_bind ⟨[(1, ⟨[2], [("l", GValue.int 0)], ["l"]⟩)], fun _ _ => .empty⟩
    (.constant 0 (.int 7)) 1 "l" none
    ⟨some 1, "l", ⟨some (.constant 0 (.int 7)), none, true⟩⟩
    (gtk_expression_bind_notify
      ⟨[(1, ⟨[2], [("l", GValue.int 0)], ["l"]⟩)], fun _ _ => .empty⟩
      ⟨some 1, "l", ⟨some (.constant 0 (.int 7)), none, true⟩⟩)).1 rfl

/-- C2 counterexample: for struct sizes `⟨4, 8, 6⟩`, the property
expression whose child is a parameterless closure (a static child of
nonzero watch size) has `watch_size` 14 — its own 8 plus the static
child's 6, contradicting "non-static children only" — while the watch
traversal touches only 8 bytes, contradicting "equals the exact byte
span traversed". -/
theorem claim_C2_counterexample :
    gtk_expression_is_static (.closure 2 3 ([] : List Expr)) = true ∧
    gtk_expression_watch_size ⟨4, 8, 6⟩ (.property 1 "n" (some (.closure 2 3 []))) = 14 ∧
    ((watch_touched ⟨4, 8, 6⟩ (.property 1 "n" (some (.closure 2 3 []))) 0).map
      Prod.snd).sum = 8 ∧
    gtk_expression_watch_size ⟨4, 8, 6⟩ (.property 1 "n" (some (.closure 2 3 [])))
      ≠ ((watch_touched ⟨4, 8, 6⟩ (.property 1 "n" (some (.closure 2 3 []))) 0).map
        Prod.snd).sum :=
  ⟨by decide, by decide, by decide, by decide⟩

/-- C2 (amended): watch and unwatch visit the very same slots in the same
fixed order at the same offsets, skipping static children, and every byte
they touch lies within the `watch_size` span computed beforehand — but
`watch_size` is only an upper bound, because a Closure's watch size skips
its static parameters while a Property's watch size includes its child
whenever one exists, even a static one. -/
theorem claim_C2_watch_traversals (sz : Sizes) (e : Expr) (off : Nat) :
    unwatch_touched sz e off = watch_touched sz e off ∧
    (∀ pr ∈ watch_touched sz e off,
      off ≤ pr.1 ∧ pr.1 + pr.2 ≤ off + gtk_expression_watch_size sz e) ∧
    (∀ o n c, gtk_expression_watch_size sz (.property o n (some c))
      = sz.propertyW + gtk_expression_watch_size sz c) ∧
    (∀ vt f p ps, gtk_expression_is_static p = true →
      gtk_expression_watch_size sz (.closure vt f (p :: ps))
        = gtk_expression_watch_size sz (.closure vt f ps)) :=
  ⟨unwatch_touched_eq_watch_touched sz e off, watch_touched_bound sz e off,
   fun _ _ _ => rfl,
   fun vt f p ps hp => by
     simp [gtk_expression_watch_size, closure_params_watch_size, hp]⟩

/-- Witness for C2 (amended) at a concrete tree: a property over a
non-static object expression. -/
theorem claim_C2_witness :
    unwatch_touched ⟨4, 8, 6⟩ (.property 1 "n" (some (.objectRef 0 (some 2)))) 0
      = watch_touched ⟨4, 8, 6⟩ (.property 1 "n" (some (.objectRef 0 (some 2)))) 0 :=
  (claim_C2_watch_traversals ⟨4, 8, 6⟩
    (.property 1 "n" (some (.objectRef 0 (some 2)))) 0).1

end GtkExpr
